import Mathlib

/-!
Shallow embedding of the Health-E kiosk service (`src/app.py`): the
reference-id generator, the PDF report renderer (modelled as a list of
canvas drawing operations with exact rational coordinates), the intake
handler and the JSON report-retrieval handler, together with proofs of
the specification claims about them.

Randomness (Python's `secrets` module, a cryptographically secure source)
is modelled as an oracle `rand : Nat → Nat` giving the index drawn at each
call of `secrets.choice`; the wall clock (`datetime.utcnow().isoformat()`)
is modelled as an oracle `clock : Nat → String`.  The JSON round trip
`json.dumps` / `json.loads` on the payload is modelled as the identity on
the structured payload value.
-/

namespace HealthE

/-- `ALPHABET = string.ascii_uppercase + string.digits` (app.py line 61). -/
def ALPHABET : List Char :=
  "ABCDEFGHIJKLMNOPQRSTUVWXYZ0123456789".toList

/-- `secrets.choice(seq)`: one uniformly random element of `seq`, drawn from
the cryptographically secure source; the drawn index is supplied by the
oracle value `r` (in-range indices are guaranteed by the `secrets` module,
and appear as a hypothesis on the oracle in the theorems). -/
def secrets_choice (seq : List Char) (r : Nat) : Char :=
  seq.getD r 'A'

/-- `generate_ref_id` (app.py lines 63-65); the source's default argument is
`n = 20`.  `rand i` is the index drawn by the i-th call of `secrets.choice`. -/
def generate_ref_id (rand : Nat → Nat) (n : Nat) : String :=
  String.mk ((List.range n).map (fun i => secrets_choice ALPHABET (rand i)))

/-- The `intake` sub-document of a payload; fields are optional because
`build_pdf` reads them with `dict.get` defaults. -/
structure IntakeData where
  name : Option String
  age : Option Int
  sex : Option String
deriving DecidableEq, Repr

/-- The `ai` sub-document of a payload. -/
structure AiResult where
  condition : Option String
  otc : Option (List String)
  notes : Option String
deriving DecidableEq, Repr

/-- The payload document stored in `payload_json` and rendered to PDF. -/
structure Payload where
  intake : Option IntakeData
  ai : Option AiResult
  created_at_utc : Option String
deriving DecidableEq, Repr

/-- One reportlab canvas drawing operation issued by `build_pdf`. -/
inductive DrawOp where
  | setFont (fontName : String) (size : ℚ)
  | drawString (x y : ℚ) (text : String)
  | line (x1 y1 x2 y2 : ℚ)
  | showPage
  | save
deriving DecidableEq, Repr

/-- `reportlab.lib.units.inch` = 72 points. -/
def inch : ℚ := 72

/-- US Letter page width in points (`letter = (612.0, 792.0)`). -/
def letterW : ℚ := 612

/-- US Letter page height in points. -/
def letterH : ℚ := 792

/-- `line_h = 14` (app.py line 88). -/
def line_h : ℚ := 14

/-- Python `s[i:i+len]` on a string. -/
def str_slice (s : String) (i len : Nat) : String :=
  String.mk ((s.toList.drop i).take len)

/-- Python `s[i:]` on a string. -/
def str_drop (s : String) (i : Nat) : String :=
  String.mk (s.toList.drop i)

/-- A loop drawing one string per line at `x`, starting at height `y` and
descending by `line_h` after each line; returns the issued operations and
the final `y`. -/
def draw_lines (x : ℚ) (y : ℚ) : List String → List DrawOp × ℚ
  | [] => ([], y)
  | s :: rest =>
    let r := draw_lines x (y - line_h) rest
    (DrawOp.drawString x y s :: r.1, r.2)

/-- The chunks drawn by the Notes loop
`for i in range(0, len(notes), max_chars): ... notes[i:i+max_chars]`
(app.py lines 138-141) with `max_chars = 92`: Python's
`range(0, L, 92)` has `(L + 91) / 92` elements, the k-th being `92 * k`. -/
def notes_lines (notes : String) : List String :=
  (List.range ((notes.length + 91) / 92)).map (fun i => str_slice notes (92 * i) 92)

/-- The operations of the Notes body (app.py lines 139-141). -/
def notes_ops (y : ℚ) (notes : String) : List DrawOp × ℚ :=
  draw_lines (1.2 * inch) y (notes_lines notes)

/-- The operations of the OTC-suggestions body (app.py lines 123-129):
an em-dash placeholder for an empty list, else one bullet per entry of
`otc[:6]`. -/
def otc_ops (y : ℚ) (otc : List String) : List DrawOp × ℚ :=
  if otc = [] then
    ([DrawOp.drawString (1.2 * inch) y "—"], y - line_h)
  else
    draw_lines (1.2 * inch) y ((otc.take 6).map (fun item => "• " ++ item))

/-- `draw_label_value` (app.py lines 93-99); returns the operations and the
decremented `y`. -/
def draw_label_value (y : ℚ) (label value : String) : List DrawOp × ℚ :=
  ([DrawOp.setFont "Helvetica-Bold" 10,
    DrawOp.drawString (1 * inch) y (label ++ ":"),
    DrawOp.setFont "Helvetica" 10,
    DrawOp.drawString (2.2 * inch) y value],
   y - line_h)

/-- The footer disclaimer literal (app.py lines 146-149). -/
def disclaimer : String :=
  "Disclaimer: Health-E is a prototype. Output is informational only and not a medical diagnosis. "
    ++ "If symptoms are severe or worsening, seek emergency care."

/-- `build_pdf` (app.py lines 67-154), as the sequence of canvas operations
it issues.  The ambient clock oracle is in scope (as `datetime` is for the
Python function) but the source body never consults it. -/
def build_pdf (clock : Nat → String) (ref_id : String) (payload : Payload) : List DrawOp :=
  let width := letterW
  let height := letterH
  let intake := payload.intake.getD { name := none, age := none, sex := none }
  let ai := payload.ai.getD { condition := none, otc := none, notes := none }
  let y0 := height - 1.85 * inch
  let s1 := draw_label_value y0 "Patient Name" (intake.name.getD "—")
  let s2 := draw_label_value s1.2 "Age" ((intake.age.map (fun a => toString a)).getD "—")
  let s3 := draw_label_value s2.2 "Sex" (intake.sex.getD "—")
  let y4 := s3.2 - 6
  let y5 := y4 - (line_h + 2)
  let condition := ai.condition.getD "Non-specific symptoms (screening suggestion)"
  let otc := ai.otc.getD []
  let notes := ai.notes.getD "This is informational only. Please verify clinically."
  let y6 := y5 - line_h
  let y7 := y6 - line_h
  let otcB := otc_ops y7 otc
  let y9 := otcB.2 - 4
  let y10 := y9 - line_h
  let notesB := notes_ops y10 notes
  [DrawOp.setFont "Helvetica-Bold" 16,
   DrawOp.drawString (1 * inch) (height - 1 * inch) "Health-E Screening Report",
   DrawOp.setFont "Helvetica" 10,
   DrawOp.drawString (1 * inch) (height - 1.25 * inch) ("Reference ID: " ++ ref_id),
   DrawOp.drawString (1 * inch) (height - 1.42 * inch)
     ("Generated (UTC): " ++ payload.created_at_utc.getD ""),
   DrawOp.line (1 * inch) (height - 1.55 * inch) (width - 1 * inch) (height - 1.55 * inch)]
  ++ s1.1 ++ s2.1 ++ s3.1
  ++ [DrawOp.setFont "Helvetica-Bold" 11,
      DrawOp.drawString (1 * inch) y4 "AI Screening Summary",
      DrawOp.setFont "Helvetica" 10,
      DrawOp.drawString (1 * inch) y5 ("Likely condition (screening): " ++ condition),
      DrawOp.setFont "Helvetica-Bold" 10,
      DrawOp.drawString (1 * inch) y6 "OTC Suggestions (informational):",
      DrawOp.setFont "Helvetica" 10]
  ++ otcB.1
  ++ [DrawOp.setFont "Helvetica-Bold" 10,
      DrawOp.drawString (1 * inch) y9 "Notes:",
      DrawOp.setFont "Helvetica" 10]
  ++ notesB.1
  ++ [DrawOp.line (1 * inch) (1.35 * inch) (width - 1 * inch) (1.35 * inch),
      DrawOp.setFont "Helvetica" 8,
      DrawOp.drawString (1 * inch) (1.1 * inch) (str_slice disclaimer 0 115),
      DrawOp.drawString (1 * inch) (0.95 * inch) (str_drop disclaimer 115),
      DrawOp.showPage,
      DrawOp.save]

/-- The pydantic request model `IntakeStart` (app.py lines 160-164): a value
of this type is one that passed the declared field constraints.
`acceptedTerms` carries the declared default `True`. -/
structure IntakeStart where
  name : String
  age : Int
  sex : String
  acceptedTerms : Bool
deriving DecidableEq, Repr

/-- FastAPI/pydantic validation of the request body against `IntakeStart`
(app.py lines 160-164): `name` must have raw length in [2, 120]
(`min_length=2, max_length=120` — pydantic performs no whitespace
trimming), `age` in [0, 120], `sex` exactly `"Male"` or `"Female"`; an
omitted `acceptedTerms` (`none`) takes the declared default `True`. -/
def validate_IntakeStart (name : String) (age : Int) (sex : String)
    (acceptedTerms : Option Bool) : Option IntakeStart :=
  if 2 ≤ name.length ∧ name.length ≤ 120 ∧ 0 ≤ age ∧ age ≤ 120 ∧
      (sex = "Male" ∨ sex = "Female") then
    some { name := name, age := age, sex := sex,
           acceptedTerms := acceptedTerms.getD true }
  else
    none

/-- One row of the `intakes` table (app.py lines 44-51); the JSON round trip
of `payload_json` is modelled as the identity on the structured payload. -/
structure IntakeRow where
  ref_id : String
  payload_json : Payload
deriving DecidableEq, Repr

/-- The persistent state the handlers touch: the `intakes` table rows in
insertion order, and the report file store (path, rendered content). -/
structure AppState where
  db : List IntakeRow
  files : List (String × List DrawOp)
deriving DecidableEq, Repr

/-- `db.add` + `db.commit` against the table's `unique=True` constraint on
`ref_id` (app.py line 50): a duplicate `ref_id` makes the commit fail. -/
def db_insert (db : List IntakeRow) (row : IntakeRow) : Except String (List IntakeRow) :=
  if db.any (fun r => r.ref_id == row.ref_id) then
    Except.error "UNIQUE constraint failed: intakes.ref_id"
  else
    Except.ok (db ++ [row])

/-- The hardcoded placeholder `ai_result` (app.py lines 194-204). -/
def ai_result : AiResult :=
  { condition := some "Non-specific symptoms (screening suggestion)",
    otc := some ["Acetaminophen (as directed on label) for pain/fever",
                 "Oral rehydration + rest"],
    notes := some ("Based on limited intake data only. Add symptoms/chat to enable better screening. "
      ++ "Verify allergies, contraindications, pregnancy status, and current meds before use.") }

/-- The payload assembled by `intake_start` (app.py lines 206-210); `now` is
the value of `datetime.utcnow().isoformat()`. -/
def mk_payload (req : IntakeStart) (now : String) : Payload :=
  { intake := some { name := some req.name, age := some req.age, sex := some req.sex },
    ai := some ai_result,
    created_at_utc := some now }

/-- `os.path.join(REPORT_DIR, f"<ref_id>.pdf")` with the default
`REPORT_DIR = "reports"` (app.py lines 29, 212). -/
def report_path_of (ref_id : String) : String :=
  "reports/" ++ ref_id ++ ".pdf"

/-- A response of the intake endpoint. -/
inductive Response where
  | ok (ref_id : String) (report_pdf_url : String)
  | httpError (statusCode : Nat) (detail : String)
  | serverError (detail : String)
deriving DecidableEq, Repr

/-- The handler `intake_start` (app.py lines 185-225): reject unaccepted
terms with a 400; otherwise generate the reference id, synthesize the
placeholder AI result, render the PDF to the path derived from the id,
then insert the record — a failed insert propagates as a server error and
leaves the already-written PDF file in place. -/
def intake_start (rand : Nat → Nat) (clock : Nat → String) (req : IntakeStart)
    (st : AppState) : Response × AppState :=
  if req.acceptedTerms = false then
    (Response.httpError 400 "Terms must be accepted.", st)
  else
    let ref_id := generate_ref_id rand 20
    let payload := mk_payload req (clock 0)
    let report_path := report_path_of ref_id
    let pdf := build_pdf clock ref_id payload
    let st1 : AppState := { st with files := st.files ++ [(report_path, pdf)] }
    match db_insert st1.db { ref_id := ref_id, payload_json := payload } with
    | Except.error e => (Response.serverError e, st1)
    | Except.ok db2 =>
        (Response.ok ref_id ("/api/report/" ++ ref_id ++ ".pdf"),
         { st1 with db := db2 })

/-- `POST /api/intake/start` as FastAPI serves it: pydantic validation of the
body, then the handler; a validation failure is a 422 with no side effect. -/
def api_intake_start (rand : Nat → Nat) (clock : Nat → String) (name : String)
    (age : Int) (sex : String) (acceptedTerms : Option Bool)
    (st : AppState) : Response × AppState :=
  match validate_IntakeStart name age sex acceptedTerms with
  | none => (Response.httpError 422 "Unprocessable Entity", st)
  | some req => intake_start rand clock req st

/-- A response of the JSON report endpoint. -/
inductive JsonResult where
  | found (payload : Payload)
  | notFound (statusCode : Nat) (detail : String)
deriving DecidableEq, Repr

/-- The handler `report_json` (app.py lines 228-237): the first row whose
`ref_id` matches, decoded from its persisted serialized form. -/
def report_json (st : AppState) (ref_id : String) : JsonResult :=
  match st.db.find? (fun r => r.ref_id == ref_id) with
  | some row => JsonResult.found row.payload_json
  | none => JsonResult.notFound 404 "Ref ID not found."

/-- The text drawn by an operation (empty for non-text operations). -/
def op_text : DrawOp → String
  | DrawOp.drawString _ _ t => t
  | _ => ""

/-- Whether an operation draws one bulleted OTC suggestion line (its text
starts with the bullet prefix the renderer prepends). -/
def is_bullet_line : DrawOp → Bool
  | DrawOp.drawString _ _ t => t.toList.take 2 == ['•', ' ']
  | _ => false

/-- A payload with ten OTC entries and bullet-free notes, for the spec's
truncation test. -/
def payload10 : Payload :=
  { intake := some { name := some "N", age := some 1, sex := some "Male" },
    ai := some { condition := some "c",
                 otc := some ["o1", "o2", "o3", "o4", "o5", "o6", "o7", "o8", "o9", "o10"],
                 notes := some "plain notes" },
    created_at_utc := some "t" }

/-- A concrete random oracle: every `secrets.choice` draws index 0. -/
def rand0 : Nat → Nat := fun _ => 0

/-- A concrete clock oracle. -/
def clock0 : Nat → String := fun _ => "2025-01-01T00:00:00"

/-- The spec's example submission. -/
def req_ok : IntakeStart :=
  { name := "Jane Doe", age := 34, sex := "Female", acceptedTerms := true }

/-- The example submission with the terms refused. -/
def req_refused : IntakeStart :=
  { name := "Jane Doe", age := 34, sex := "Female", acceptedTerms := false }

/-- The empty store. -/
def st0 : AppState := { db := [], files := [] }

/-- The state after submitting `req_ok` to the empty store. -/
def st_demo : AppState := (intake_start rand0 clock0 req_ok st0).2

/-- A pre-existing row whose `ref_id` collides with the id `rand0` yields. -/
def row_dup : IntakeRow :=
  { ref_id := "AAAAAAAAAAAAAAAAAAAA", payload_json := mk_payload req_ok (clock0 0) }

/-- A store already holding the colliding row. -/
def st_dup : AppState := { db := [row_dup], files := [] }

/-! ## Helper lemmas -/

/-- The operations of a `draw_lines` loop: the k-th line is drawn at
`y - line_h * k`. -/
theorem draw_lines_fst (x y : ℚ) (ls : List String) :
    (draw_lines x y ls).1 =
      (List.range ls.length).map
        (fun (k : Nat) => DrawOp.drawString x (y - line_h * (k : ℚ)) (ls.getD k "")) := by
  induction ls generalizing y with
  | nil => simp [draw_lines]
  | cons s rest ih =>
      simp only [draw_lines, ih, List.length_cons, List.range_succ_eq_map,
        List.map_cons, List.map_map, List.cons.injEq]
      refine ⟨by simp, ?_⟩
      apply List.map_congr_left
      intro a _
      simp only [Function.comp_apply, List.getD_cons_succ]
      congr 1
      push_cast
      ring

/-- The final `y` of a `draw_lines` loop. -/
theorem draw_lines_snd (x y : ℚ) (ls : List String) :
    (draw_lines x y ls).2 = y - line_h * (ls.length : ℚ) := by
  induction ls generalizing y with
  | nil => simp [draw_lines]
  | cons s rest ih =>
      simp only [draw_lines, ih, List.length_cons]
      push_cast
      ring

/-- Reading every position of a list with `getD` reproduces the list. -/
theorem range_map_getD {α : Type} (l : List α) (d : α) :
    (List.range l.length).map (fun k => l.getD k d) = l := by
  apply List.ext_getElem
  · simp
  · intro i h1 h2
    simp [List.getD_eq_getElem?_getD, List.getElem?_eq_getElem h2]

/-- `find?` over a store whose older rows all fail the predicate finds the
newly appended row. -/
theorem find?_append_singleton {α : Type} (p : α → Bool) (l : List α) (a : α)
    (hl : ∀ x ∈ l, p x = false) (ha : p a = true) :
    (l ++ [a]).find? p = some a := by
  induction l with
  | nil => simp [List.find?_cons_of_pos _ ha]
  | cons x xs ih =>
      have hx : p x = false := hl x (List.mem_cons_self x xs)
      rw [List.cons_append, List.find?_cons_of_neg _ (by simp [hx])]
      exact ih (fun y hy => hl y (List.mem_cons_of_mem x hy))

/-! ## Claims -/

/-- C1: every string returned by `generate_ref_id` with the default `n = 20`
has length exactly 20 and all of its characters lie in the 36-character
alphabet of uppercase ASCII letters and digits; the characters come from
the `secrets` oracle (a cryptographically secure source), whose draws are
in-range indices into the alphabet. -/
theorem C1_ref_id_length_and_alphabet (rand : Nat → Nat)
    (hrand : ∀ i, rand i < ALPHABET.length) :
    (generate_ref_id rand 20).length = 20 ∧
    ∀ c ∈ (generate_ref_id rand 20).toList, c ∈ ALPHABET := by
  constructor
  · show ((List.range 20).map (fun i => secrets_choice ALPHABET (rand i))).length = 20
    simp
  · intro c hc
    have hc' : c ∈ (List.range 20).map (fun i => secrets_choice ALPHABET (rand i)) := hc
    obtain ⟨i, _, rfl⟩ := List.mem_map.mp hc'
    show ALPHABET.getD (rand i) 'A' ∈ ALPHABET
    rw [List.getD_eq_getElem ALPHABET 'A' (hrand i)]
    exact List.getElem_mem _

/-- C1 witness: a concrete in-range oracle. -/
theorem C1_witness :
    (generate_ref_id rand0 20).length = 20 ∧
    ∀ c ∈ (generate_ref_id rand0 20).toList, c ∈ ALPHABET :=
  C1_ref_id_length_and_alphabet rand0 (fun _ => (by decide : (0 : Nat) < ALPHABET.length))

/-- C3: a submission with `acceptedTerms = false` yields the 400
"Terms must be accepted." error and leaves the whole state unchanged: no
reference id reaches the response, no PDF is added to the file store, no
record is added to the table. -/
theorem C3_terms_not_accepted (rand : Nat → Nat) (clock : Nat → String)
    (req : IntakeStart) (st : AppState) (h : req.acceptedTerms = false) :
    intake_start rand clock req st =
      (Response.httpError 400 "Terms must be accepted.", st) := by
  simp [intake_start, h]

/-- C3 witness: the example submission with the terms refused. -/
theorem C3_witness :
    intake_start rand0 clock0 req_refused st0 =
      (Response.httpError 400 "Terms must be accepted.", st0) :=
  C3_terms_not_accepted rand0 clock0 req_refused st0 rfl

/-- C4 counterexample: a name of two spaces — empty after trimming, since it
consists only of whitespace — passes validation (pydantic's
`min_length=2` counts raw characters and performs no trimming), so the
claim's "rejected before any side effect" fails at this input. -/
theorem C4_counterexample :
    (validate_IntakeStart "  " 34 "Female" (some true)).isSome = true ∧
    "  ".toList.all (fun c => c.isWhitespace) = true ∧
    "  " ≠ "" := by
  refine ⟨by decide, by decide, by decide⟩

/-- C4 amended: validation accepts a submission iff the raw, untrimmed name
length is within [2, 120] (together with the other field constraints); no
whitespace trimming is performed, and when validation rejects, it rejects
with no side effect (the state is unchanged). -/
theorem C4_amended_no_trimming (name : String) (age : Int) (sex : String)
    (t : Option Bool) (rand : Nat → Nat) (clock : Nat → String) (st : AppState) :
    ((validate_IntakeStart name age sex t).isSome = true ↔
      (2 ≤ name.length ∧ name.length ≤ 120 ∧ 0 ≤ age ∧ age ≤ 120 ∧
        (sex = "Male" ∨ sex = "Female"))) ∧
    (validate_IntakeStart name age sex t = none →
      api_intake_start rand clock name age sex t st =
        (Response.httpError 422 "Unprocessable Entity", st)) := by
  constructor
  · unfold validate_IntakeStart
    split <;> simp_all
  · intro h
    simp [api_intake_start, h]

/-- C8: the renderer's drawn content is a pure function of the reference id
and the payload: it never consults the ambient clock, so two renders under
different clocks are identical, and the timestamp it shows is exactly the
`created_at_utc` already baked into the payload. -/
theorem C8_renderer_clock_independent (clk1 clk2 : Nat → String)
    (ref_id : String) (p : Payload) :
    build_pdf clk1 ref_id p = build_pdf clk2 ref_id p ∧
    (build_pdf clk1 ref_id p).getD 4 DrawOp.save =
      DrawOp.drawString (1 * inch) (letterH - 1.42 * inch)
        ("Generated (UTC): " ++ p.created_at_utc.getD "") :=
  ⟨rfl, rfl⟩

/-- C10: with an empty notes string the Notes body draws zero lines (the
slicing loop runs zero times), while — unlike the OTC section — no em-dash
placeholder appears: the empty OTC list does draw one. -/
theorem C10_empty_notes_draws_nothing (y : ℚ) :
    notes_lines "" = [] ∧
    (notes_ops y "").1 = [] ∧
    (otc_ops y []).1 = [DrawOp.drawString (1.2 * inch) y "—"] :=
  ⟨rfl, rfl, rfl⟩

/-- The texts drawn by a `draw_lines` loop are exactly its input lines. -/
theorem map_op_text_draw_lines (x y : ℚ) (ls : List String) :
    (draw_lines x y ls).1.map op_text = ls := by
  induction ls generalizing y with
  | nil => simp [draw_lines]
  | cons s rest ih => simp [draw_lines, op_text, ih]

/-- C5: the OTC section draws at most 6 bulleted lines — exactly
`min otc.length 6` of them, the bullets of the first 6 entries in order,
so a 10-entry list renders exactly 6 bullets (checked on `build_pdf` for
the concrete `payload10`) — and an empty list draws exactly one em-dash
placeholder line instead. -/
theorem C5_otc_at_most_six_bullets (y : ℚ) (otc : List String) :
    ((otc_ops y otc).1.length = if otc = [] then 1 else min otc.length 6) ∧
    ((otc_ops y []).1 = [DrawOp.drawString (1.2 * inch) y "—"]) ∧
    (otc ≠ [] → (otc_ops y otc).1.map op_text =
      (otc.take 6).map (fun item => "• " ++ item)) ∧
    ((build_pdf (fun _ => "") "R" payload10).filter is_bullet_line).length = 6 := by
  refine ⟨?_, rfl, ?_, by decide⟩
  · by_cases h : otc = []
    · simp [otc_ops, h]
    · simp only [otc_ops, h, if_false, draw_lines_fst, List.length_map,
        List.length_range, List.length_take]
      omega
  · intro h
    simp only [otc_ops, h, if_false]
    exact map_op_text_draw_lines (1.2 * inch) y _

/-- C6: the Notes body hard-wraps by naive fixed-width character slicing at
column 92: there are `⌈len/92⌉` lines, line k holds exactly the characters
`[92*k, 92*k + 92)` of the notes string, and successive lines are drawn one
fixed line height apart (`line_h` below the previous, at the same x). -/
theorem C6_notes_fixed_width_wrap (y : ℚ) (notes : String) :
    (notes_ops y notes).1 =
      (List.range (notes_lines notes).length).map
        (fun (k : Nat) => DrawOp.drawString (1.2 * inch) (y - line_h * (k : ℚ))
          ((notes_lines notes).getD k "")) ∧
    (∀ k : Nat, (notes_lines notes).getD k "" =
      String.mk ((notes.toList.drop (92 * k)).take 92)) ∧
    (notes_lines notes).length = (notes.length + 91) / 92 := by
  refine ⟨?_, ?_, by simp [notes_lines]⟩
  · simp only [notes_ops, draw_lines_fst]
  · intro k
    by_cases hk : k < (notes.length + 91) / 92
    · simp only [notes_lines, List.getD_eq_getElem?_getD, List.getElem?_map,
        List.getElem?_range hk, Option.map_some, Option.getD_some]
      rfl
    · have hcount : (notes_lines notes).length ≤ k := by
        simp only [notes_lines, List.length_map, List.length_range]
        omega
      have hlen : notes.length ≤ 92 * k := by
        by_contra hlt
        push_neg at hlt
        have : k + 1 ≤ (notes.length + 91) / 92 :=
          (Nat.le_div_iff_mul_le (by norm_num)).mpr (by omega)
        omega
      have hdata : notes.toList.length = notes.length := rfl
      rw [List.getD_eq_getElem?_getD, List.getElem?_eq_none hcount]
      rw [List.drop_eq_nil_of_le (by omega)]
      rfl

/-- C2: any submission the handler answers with a success response can be
read back: retrieving the returned reference id yields exactly the stored
payload, whose intake component is the submitted name, age and sex and
whose ai.condition is the fixed placeholder string. -/
theorem C2_round_trip (rand : Nat → Nat) (clock : Nat → String)
    (req : IntakeStart) (st : AppState) (r u : String) (st2 : AppState)
    (h : intake_start rand clock req st = (Response.ok r u, st2)) :
    report_json st2 r = JsonResult.found (mk_payload req (clock 0)) ∧
    (mk_payload req (clock 0)).intake =
      some { name := some req.name, age := some req.age, sex := some req.sex } ∧
    (mk_payload req (clock 0)).ai = some ai_result ∧
    ai_result.condition = some "Non-specific symptoms (screening suggestion)" := by
  refine ⟨?_, rfl, rfl, rfl⟩
  by_cases hb : req.acceptedTerms = false
  · simp [intake_start, hb] at h
  · cases hins : db_insert st.db
        { ref_id := generate_ref_id rand 20, payload_json := mk_payload req (clock 0) } with
    | error e =>
        have hstep : intake_start rand clock req st = (Response.serverError e,
            { st with files := st.files ++ [(report_path_of (generate_ref_id rand 20),
              build_pdf clock (generate_ref_id rand 20) (mk_payload req (clock 0)))] }) := by
          simp [intake_start, hb, hins]
        rw [hstep] at h
        simp at h
    | ok db2 =>
        have hstep : intake_start rand clock req st =
            (Response.ok (generate_ref_id rand 20)
              ("/api/report/" ++ generate_ref_id rand 20 ++ ".pdf"),
             { db := db2,
               files := st.files ++ [(report_path_of (generate_ref_id rand 20),
                 build_pdf clock (generate_ref_id rand 20) (mk_payload req (clock 0)))] }) := by
          simp [intake_start, hb, hins]
        rw [hstep] at h
        rw [Prod.mk.injEq, Response.ok.injEq] at h
        obtain ⟨⟨hr, -⟩, hst⟩ := h
        subst hr
        subst hst
        unfold db_insert at hins
        split at hins
        · simp at hins
        · rename_i hany
          rw [Except.ok.injEq] at hins
          subst hins
          have hall : ∀ x ∈ st.db,
              (x.ref_id == generate_ref_id rand 20) = false := by
            intro x hx
            rcases hxf : x.ref_id == generate_ref_id rand 20 with _ | _
            · rfl
            · exact absurd (List.any_eq_true.mpr ⟨x, hx, hxf⟩) hany
          simp only [report_json]
          rw [find?_append_singleton _ _ _ hall (by simp)]

/-- C2 witness: the spec's example submission against the empty store. -/
theorem C2_witness :
    report_json st_demo "AAAAAAAAAAAAAAAAAAAA" =
      JsonResult.found (mk_payload req_ok (clock0 0)) ∧
    (mk_payload req_ok (clock0 0)).intake =
      some { name := some "Jane Doe", age := some 34, sex := some "Female" } ∧
    (mk_payload req_ok (clock0 0)).ai = some ai_result ∧
    ai_result.condition = some "Non-specific symptoms (screening suggestion)" :=
  C2_round_trip rand0 clock0 req_ok st0 "AAAAAAAAAAAAAAAAAAAA"
    "/api/report/AAAAAAAAAAAAAAAAAAAA.pdf" st_demo rfl

/-- C7: the handler renders the PDF to the file store before attempting the
record insert, so when the insert fails (a ref-id collision with an
existing row), the handler reports a server error with the PDF file
already appended to the file store and the table unchanged — an orphaned
file with no record. -/
theorem C7_orphaned_pdf_on_insert_failure (rand : Nat → Nat)
    (clock : Nat → String) (req : IntakeStart) (st : AppState)
    (ht : req.acceptedTerms = true)
    (hdup : st.db.any (fun row => row.ref_id == generate_ref_id rand 20) = true) :
    intake_start rand clock req st =
      (Response.serverError "UNIQUE constraint failed: intakes.ref_id",
       { db := st.db,
         files := st.files ++ [(report_path_of (generate_ref_id rand 20),
           build_pdf clock (generate_ref_id rand 20) (mk_payload req (clock 0)))] }) := by
  simp [intake_start, ht, db_insert, hdup]

/-- C7 witness: a store already holding a row with the colliding id. -/
theorem C7_witness :
    intake_start rand0 clock0 req_ok st_dup =
      (Response.serverError "UNIQUE constraint failed: intakes.ref_id",
       { db := st_dup.db,
         files := st_dup.files ++ [(report_path_of (generate_ref_id rand0 20),
           build_pdf clock0 (generate_ref_id rand0 20) (mk_payload req_ok (clock0 0)))] }) :=
  C7_orphaned_pdf_on_insert_failure rand0 clock0 req_ok st_dup rfl (by decide)

/-- C9: a body that omits `acceptedTerms` validates with the declared
default `True`, so (absent an id collision) the submission is processed
in full rather than rejected: success response, record appended to the
table, PDF appended to the file store. -/
theorem C9_omitted_terms_default_true (rand : Nat → Nat) (clock : Nat → String)
    (name : String) (age : Int) (sex : String) (st : AppState) (req : IntakeStart)
    (hv : validate_IntakeStart name age sex none = some req)
    (hnodup : st.db.any (fun row => row.ref_id == generate_ref_id rand 20) = false) :
    req.acceptedTerms = true ∧
    api_intake_start rand clock name age sex none st =
      (Response.ok (generate_ref_id rand 20)
        ("/api/report/" ++ generate_ref_id rand 20 ++ ".pdf"),
       { db := st.db ++ [{ ref_id := generate_ref_id rand 20,
                           payload_json := mk_payload req (clock 0) }],
         files := st.files ++ [(report_path_of (generate_ref_id rand 20),
           build_pdf clock (generate_ref_id rand 20) (mk_payload req (clock 0)))] }) := by
  have hterms : req.acceptedTerms = true := by
    unfold validate_IntakeStart at hv
    split at hv
    · rw [Option.some.injEq] at hv
      subst hv
      rfl
    · exact absurd hv (by simp)
  refine ⟨hterms, ?_⟩
  simp [api_intake_start, hv, intake_start, hterms, db_insert, hnodup]

/-- C9 witness: the example fields with `acceptedTerms` omitted. -/
theorem C9_witness :
    req_ok.acceptedTerms = true ∧
    api_intake_start rand0 clock0 "Jane Doe" 34 "Female" none st0 =
      (Response.ok (generate_ref_id rand0 20)
        ("/api/report/" ++ generate_ref_id rand0 20 ++ ".pdf"),
       { db := st0.db ++ [{ ref_id := generate_ref_id rand0 20,
                            payload_json := mk_payload req_ok (clock0 0) }],
         files := st0.files ++ [(report_path_of (generate_ref_id rand0 20),
           build_pdf clock0 (generate_ref_id rand0 20) (mk_payload req_ok (clock0 0)))] }) :=
  C9_omitted_terms_default_true rand0 clock0 "Jane Doe" 34 "Female" st0 req_ok
    (by decide) rfl

end HealthE
